import Mathlib

/-!
Verification model of the MySensors transport core (`src/core/MyTransport.h`).

The repository ships only the transport header: all constants, the packed
status record (`transportSM`), the validity macros and the function contracts
are declared there, while the function bodies live in a file that is not part
of this repository snapshot.  Definitions below therefore come from two
sources, each marked in its doc string:

* constants, bit-field widths and the validity predicates are transcribed
  directly from `MyTransport.h`;
* the behaviour of the state machine and of the transport support functions
  is modelled from the specification (doc strings of the header plus the
  accompanying natural-language specification), marked `Modelled from the
  spec:`.

Machine integers are modelled as `Nat`; the two 4-bit counters of the packed
`transportSM` record wrap explicitly modulo 16 (`inc4`).  Wall-clock time is
abstracted: the state machine receives timeout/response events as explicit
inputs, and the uplink flood-control logic receives the millisecond clock as
an argument.
-/

namespace MySensors

/-- From `MyTransport.h` lines 148-152: `TRANSMISSION_FAILURES` is 10 when the
build defines `MY_REPEATER_FEATURE` and 5 otherwise.  The `Bool` argument
models the compile-time flag. -/
def TRANSMISSION_FAILURES (repeater : Bool) : Nat := if repeater then 10 else 5

/-- From `MyTransport.h` line 153: duration of the failure state (ms). -/
def TIMEOUT_FAILURE_STATE : Nat := 10000

/-- From `MyTransport.h` line 154: general state timeout (ms). -/
def STATE_TIMEOUT : Nat := 2000

/-- From `MyTransport.h` line 155: retries before switching to FAILURE. -/
def STATE_RETRIES : Nat := 3

/-- From `MyTransport.h` line 156: ID 255 is reserved for auto initialization. -/
def AUTO : Nat := 255

/-- From `MyTransport.h` line 157: broadcasts are addressed to ID 255. -/
def BROADCAST_ADDRESS : Nat := 255

/-- From `MyTransport.h` line 158: invalid distance when searching for parent. -/
def DISTANCE_INVALID : Nat := 255

/-- From `MyTransport.h` line 159: maximal number of hops for ping/pong. -/
def MAX_HOPS : Nat := 254

/-- From `MyTransport.h` line 160: invalid hops. -/
def INVALID_HOPS : Nat := 255

/-- From `MyTransport.h` line 161: maximum number of subsequently processed
messages in the RX FIFO per call. -/
def MAX_SUBSEQ_MSGS : Nat := 5

/-- From `MyTransport.h` line 162: minimum time interval to re-check uplink (ms). -/
def CHKUPL_INTERVAL : Nat := 10000

/-- Gateway node address: reserved ID 0 (spec section 3 and section 6). -/
def GATEWAY_ADDRESS : Nat := 0

/-- From `MyTransport.h` line 165: `isValidDistance(distance)` is
`distance != DISTANCE_INVALID`. -/
def isValidDistance (distance : Nat) : Bool := distance != DISTANCE_INVALID

/-- From `MyTransport.h` line 166: `isValidParent(parent)` is `parent != AUTO`. -/
def isValidParent (parent : Nat) : Bool := parent != AUTO

/-- Increment of a 4-bit packed counter.  From `MyTransport.h` lines 196-197:
`retries` and `failedUplinkTransmissions` are `uint8_t ... : 4` bit-fields, so
an increment wraps modulo 16. -/
def inc4 (x : Nat) : Nat := (x + 1) % 16

/-- Compile-time configuration of a node (spec section 6): gateway mode
(`MY_GATEWAY`), static parent (`MY_PARENT_NODE_ID`, `AUTO` = dynamic search),
static node ID (`MY_NODE_ID`, `AUTO` = controller-assigned) and
`MY_REPEATER_FEATURE`. -/
structure Config where
  isGateway : Bool
  staticParent : Nat
  staticNodeId : Nat
  repeater : Bool
deriving DecidableEq

/-- From `MyTransport.h` line 164: `_autoFindParent` is
`MY_PARENT_NODE_ID == AUTO`. -/
def autoFindParent (cfg : Config) : Bool := cfg.staticParent == AUTO

/-- The six states of the transport state machine (header log sections:
`stInit`, `stParent`, `stID`, `stUplink`, `stReady`, `stFailure`). -/
inductive SMState where
  | INIT
  | FIND_PARENT
  | ACQUIRE_ID
  | UPLINK
  | READY
  | FAILURE
deriving DecidableEq

/-- Transport status record, modelling the `transportSM` structure of
`MyTransport.h` lines 183-200 together with the node configuration values it
controls (node ID, parent and distance, spec section 3).  `retries` and
`failedUplink` model the two 4-bit bit-fields; `tentParent`/`tentDist` model
the tentative parent candidate examined during the FIND_PARENT wait
(`tentDist = DISTANCE_INVALID` meaning "no candidate yet"). -/
structure NodeState where
  st : SMState
  parent : Nat
  distance : Nat
  nodeId : Nat
  findingParent : Bool
  preferredParentFound : Bool
  transportActive : Bool
  pingActive : Bool
  tentParent : Nat
  tentDist : Nat
  retries : Nat
  failedUplink : Nat
  pingResponse : Nat
  lastUplinkCheck : Nat
deriving DecidableEq

/-- State of a node before `transportInitialize` runs: no parent, no
candidate, all flags cleared, counters zero. -/
def initialNodeState : NodeState where
  st := SMState.INIT
  parent := AUTO
  distance := DISTANCE_INVALID
  nodeId := AUTO
  findingParent := false
  preferredParentFound := false
  transportActive := false
  pingActive := false
  tentParent := 0
  tentDist := DISTANCE_INVALID
  retries := 0
  failedUplink := 0
  pingResponse := INVALID_HOPS
  lastUplinkCheck := 0

/-- Modelled from the spec: environment input consumed by one call of the
public `transportProcess` (the bodies of the state machine are missing from
this snapshot).  `uplinkFailures` counts failed uplink sends performed by the
routing layer since the previous call (each one increments the 4-bit
`failedUplinkTransmissions` field); `fparResponses` are the pending
`I_FIND_PARENT_RESPONSE` frames `(sender, distance)` in the RX FIFO;
`timeout` tells whether `STATE_TIMEOUT` elapsed in the current state;
`idResponse` is a pending `I_ID_RESPONSE`; `uplinkOk` is the outcome of the
gateway ping issued by the UPLINK state; `sanityFail` reports a failed
transport sanity check; `failureTimeout` tells whether
`TIMEOUT_FAILURE_STATE` elapsed in the FAILURE state. -/
structure Input where
  radioInitOk : Bool
  uplinkFailures : Nat
  fparResponses : List (Nat × Nat)
  timeout : Bool
  idResponse : Option Nat
  uplinkOk : Bool
  sanityFail : Bool
  failureTimeout : Bool
deriving DecidableEq

/-- Well-formed environment input: a received frame's sender is a real node
address, never the broadcast address 255 (spec section 3: node IDs are in
[0..254], 255 is the broadcast/AUTO sentinel). -/
def InputWF (inp : Input) : Prop :=
  ∀ p ∈ inp.fparResponses, p.1 ≠ BROADCAST_ADDRESS

/-- Modelled from the spec: node ID validity used by the ACQUIRE_ID state
("not AUTO, not 0, not broadcast", spec section 4.G). -/
def isValidNodeId (id : Nat) : Bool := id != 0 && id != AUTO

/-- Modelled from the spec: handling of one `I_FIND_PARENT_RESPONSE`
`(sender, distance)` (body of `transportProcessMessage` missing).  A response
is dropped while no find-parent request is active (log `FPAR INACTIVE`); a
response whose distance is `DISTANCE_INVALID` is ignored (`isValidDistance`,
header line 165); the first valid response becomes the tentative parent; a
response from the gateway itself (distance 0) or from a node with a strictly
smaller distance replaces it and marks the preferred parent found (ties keep
the first observed candidate). -/
def fparHandleResponse (s : NodeState) (resp : Nat × Nat) : NodeState :=
  if s.findingParent = false then s
  else if isValidDistance resp.2 = false then s
  else if s.tentDist = DISTANCE_INVALID then
    { s with tentParent := resp.1, tentDist := resp.2 }
  else if resp.2 = 0 ∨ resp.2 < s.tentDist then
    { s with tentParent := resp.1, tentDist := resp.2, preferredParentFound := true }
  else s

/-- Modelled from the spec: `transportProcessFIFO` (body missing) drains at
most a given number of pending frames from the RX FIFO, processing each one,
and returns the updated state together with the frames left in the FIFO. -/
def transportProcessFIFO : Nat → NodeState → List (Nat × Nat) → NodeState × List (Nat × Nat)
  | 0, s, fifo => (s, fifo)
  | _ + 1, s, [] => (s, [])
  | n + 1, s, f :: rest => transportProcessFIFO n (fparHandleResponse s f) rest

/-- Messages, reduced to the single header field the routing decision
inspects: the final destination (spec section 4.F). -/
structure MyMessage where
  destination : Nat
deriving DecidableEq

/-- Observable routing actions of `transportRouteMessage`. -/
inductive RouteEvent where
  | localDeliver
  | radioSend (dest : Nat)
deriving DecidableEq

/-- An empty routing table: every destination routes via the parent. -/
def emptyTable : Nat → Option Nat := fun _ => none

/-- Modelled from the spec: `transportRouteMessage` (body missing; header
lines 291-299: "omits the transport state check, i.e. message can be sent
even if transport is not ready").  While a parent search is active the
message is refused (log `FPAR ACTIVE`); a message for the node itself is
delivered locally; a broadcast goes out on the broadcast address; otherwise
the next hop is the routing-table entry, falling back to the parent.  On a
failed link-layer send to the parent the 4-bit failed-uplink counter is
incremented, on a successful send it is reset.  `self` is this node's ID,
`table` the routing table, `sendOk` the link-layer outcome. -/
def transportRouteMessage (self : Nat) (table : Nat → Option Nat) (sendOk : Bool)
    (s : NodeState) (m : MyMessage) : Bool × NodeState × List RouteEvent :=
  if s.findingParent = true then (false, s, [])
  else if m.destination = self then (true, s, [RouteEvent.localDeliver])
  else if m.destination = BROADCAST_ADDRESS then
    (sendOk, s, [RouteEvent.radioSend BROADCAST_ADDRESS])
  else
    let next := (table m.destination).getD s.parent
    if sendOk then (true, { s with failedUplink := 0 }, [RouteEvent.radioSend next])
    else
      (false,
       if next = s.parent then { s with failedUplink := inc4 s.failedUplink } else s,
       [RouteEvent.radioSend next])

/-- The public readiness predicate (header line 334 and spec section 4.H:
true iff the state machine is in READY). -/
def isTransportReady (s : NodeState) : Bool := s.st = SMState.READY

/-- Modelled from the spec: `transportSendRoute` (body missing; header lines
300-305: route with transport state check).  When the transport is not ready
the message is refused with the `TNR` error: result `false`, no routing
action, state unchanged. -/
def transportSendRoute (self : Nat) (table : Nat → Option Nat) (sendOk : Bool)
    (s : NodeState) (m : MyMessage) : Bool × NodeState × List RouteEvent :=
  if isTransportReady s = true then transportRouteMessage self table sendOk s m
  else (false, s, [])

/-- Modelled from the spec: start of `transportPingNode` (body missing):
mark the ping active and preset the stored pong response to `INVALID_HOPS`. -/
def pingStart (s : NodeState) : NodeState :=
  { s with pingActive := true, pingResponse := INVALID_HOPS }

/-- Modelled from the spec: `transportPingNode` (body missing; header lines
285-290: "hops from pinged node or 255 if no answer received within
2000ms").  Sends one `I_PING` to `targetId` (third component: the list of
ping targets emitted), sets the ping-active flag, then waits; `reply` is the
hop count carried by a matching `I_PONG` arriving within the 2000 ms window,
if any.  The flag is cleared before control returns (spec section 5). -/
def transportPingNode (targetId : Nat) (reply : Option Nat) (s : NodeState) :
    Nat × NodeState × List Nat :=
  let s1 := pingStart s
  match reply with
  | some hops => (hops, { s1 with pingResponse := hops, pingActive := false }, [targetId])
  | none => (INVALID_HOPS, { s1 with pingActive := false }, [targetId])

/-- Modelled from the spec: `transportCheckUplink` (body missing; header
lines 313-318 and spec section 4.F).  With `force = false` and less than
`CHKUPL_INTERVAL` ms since the last check the call is flood-controlled: it
returns ok without pinging.  Otherwise the gateway is pinged (second
component: number of pings emitted) and the last-check time is stamped; on a
reply the stored distance is updated when the observed hop count differs
(log `DGWC`); with no reply the check fails. -/
def transportCheckUplink (force : Bool) (now : Nat) (reply : Option Nat)
    (s : NodeState) : Bool × Nat × NodeState :=
  if force = false ∧ now - s.lastUplinkCheck < CHKUPL_INTERVAL then
    (true, 0, s)
  else
    let r := transportPingNode GATEWAY_ADDRESS reply { s with lastUplinkCheck := now }
    if r.1 = INVALID_HOPS then (false, r.2.2.length, r.2.1)
    else if r.1 = r.2.1.distance then (true, r.2.2.length, r.2.1)
    else (true, r.2.2.length, { r.2.1 with distance := r.1 })

/-- Modelled from the spec: `stReadyTransition` (body missing; spec section
4.G READY row): mark the transport active and reset the retry and
failed-uplink counters on entering READY. -/
def stReadyTransition (s : NodeState) : NodeState :=
  { s with st := SMState.READY, transportActive := true, retries := 0, failedUplink := 0 }

/-- Modelled from the spec: `stUplinkTransition` (body missing): enter the
UPLINK state and issue `transportCheckUplink(force=true)`; its outcome is the
`uplinkOk` input consumed by the next update. -/
def stUplinkTransition (s : NodeState) : NodeState :=
  { s with st := SMState.UPLINK }

/-- Modelled from the spec: `stIDTransition` (body missing; spec section 4.G
ACQUIRE_ID row): with a valid node ID go straight to UPLINK, otherwise stay
in ACQUIRE_ID after sending the ID request to the gateway. -/
def stIDTransition (s : NodeState) : NodeState :=
  if isValidNodeId s.nodeId = true then stUplinkTransition { s with st := SMState.ACQUIRE_ID, retries := 0 }
  else { s with st := SMState.ACQUIRE_ID }

/-- Modelled from the spec: `stParentTransition` (body missing; spec section
4.G FIND_PARENT row).  The failed-uplink counter is reset on entry (spec
scenario 4).  With a static parent configured the parent is set and the
machine moves on to ACQUIRE_ID; otherwise a FIND_PARENT request is broadcast,
the finding-parent flag raised, the preferred-parent flag and the tentative
candidate cleared. -/
def stParentTransition (cfg : Config) (s : NodeState) : NodeState :=
  if autoFindParent cfg = true then
    { s with st := SMState.FIND_PARENT, failedUplink := 0, findingParent := true,
             preferredParentFound := false, tentDist := DISTANCE_INVALID }
  else
    stIDTransition { s with st := SMState.FIND_PARENT, failedUplink := 0,
                            parent := cfg.staticParent, retries := 0 }

/-- Modelled from the spec: `stFailureTransition` (body missing): power down
the radio and mark the transport inactive. -/
def stFailureTransition (s : NodeState) : NodeState :=
  { s with st := SMState.FAILURE, transportActive := false,
           findingParent := false, pingActive := false }

/-- Modelled from the spec: the flag and counter reset performed at the top
of `stInitTransition` (spec section 4.G INIT row), together with loading the
node address: gateway address 0 in gateway mode, otherwise the configured
static ID or AUTO. -/
def stInitResetState (cfg : Config) (s : NodeState) : NodeState :=
  { s with st := SMState.INIT, findingParent := false,
           preferredParentFound := false, pingActive := false,
           transportActive := false, retries := 0,
           nodeId := if cfg.isGateway then GATEWAY_ADDRESS else cfg.staticNodeId }

/-- Modelled from the spec: `stInitTransition` (body missing; spec section
4.G INIT row): reset the flags via `stInitResetState`, initialize the radio
and load the node address.  On radio failure go to FAILURE; a gateway jumps
straight to READY; any other node proceeds to FIND_PARENT. -/
def stInitTransition (cfg : Config) (inp : Input) (s : NodeState) : NodeState :=
  if inp.radioInitOk = false then stFailureTransition (stInitResetState cfg s)
  else if cfg.isGateway = true then stReadyTransition (stInitResetState cfg s)
  else stParentTransition cfg (stInitResetState cfg s)

/-- Modelled from the spec: committing the tentative parent at the end of a
find-parent round: store the parent, set this node's distance to the
parent's reported distance plus one hop (spec scenario 1), clear the
finding-parent flag and move on to ACQUIRE_ID. -/
def stParentCommit (s : NodeState) : NodeState :=
  stIDTransition { s with parent := s.tentParent, distance := s.tentDist + 1,
                          findingParent := false, retries := 0 }

/-- Modelled from the spec: `stParentUpdate` (body missing; spec section 4.G
FIND_PARENT row).  A preferred parent ends the wait early; on timeout a
tentative parent is committed; on timeout with no candidate the state is
re-entered while `retries` is below `STATE_RETRIES`, and FAILURE is entered
once the limit is exhausted. -/
def stParentUpdate (cfg : Config) (inp : Input) (s : NodeState) : NodeState :=
  if s.preferredParentFound = true then stParentCommit s
  else if inp.timeout = true then
    if s.tentDist ≠ DISTANCE_INVALID then stParentCommit s
    else if s.retries < STATE_RETRIES then stParentTransition cfg { s with retries := inc4 s.retries }
    else stFailureTransition { s with retries := 0 }
  else s

/-- Modelled from the spec: `stIDUpdate` (body missing; spec section 4.G
ACQUIRE_ID row).  A valid assigned ID is persisted and the machine moves to
UPLINK; an invalid assigned ID (0 or 255) forces FAILURE; on timeout the
state is re-entered while `retries` is below `STATE_RETRIES`, then FAILURE. -/
def stIDUpdate (inp : Input) (s : NodeState) : NodeState :=
  match inp.idResponse with
  | some newId =>
    if isValidNodeId newId = true then stUplinkTransition { s with nodeId := newId, retries := 0 }
    else stFailureTransition { s with retries := 0 }
  | none =>
    if inp.timeout = true then
      if s.retries < STATE_RETRIES then stIDTransition { s with retries := inc4 s.retries }
      else stFailureTransition { s with retries := 0 }
    else s

/-- Modelled from the spec: `stUplinkUpdate` (body missing; spec section 4.G
UPLINK row).  On a successful gateway ping enter READY; on failure re-enter
while `retries` is below `STATE_RETRIES`, then FAILURE. -/
def stUplinkUpdate (inp : Input) (s : NodeState) : NodeState :=
  if inp.uplinkOk = true then stReadyTransition s
  else if s.retries < STATE_RETRIES then stUplinkTransition { s with retries := inc4 s.retries }
  else stFailureTransition { s with retries := 0 }

/-- Modelled from the spec: `stReadyUpdate` (body missing; spec section 4.G
READY row).  A failed sanity check forces FAILURE.  When the failed-uplink
counter reaches `TRANSMISSION_FAILURES`: with a dynamic parent a new parent
search starts (log `SNP`), with a static parent the node stays READY and the
counter is reset (log `STATP`). -/
def stReadyUpdate (cfg : Config) (inp : Input) (s : NodeState) : NodeState :=
  if inp.sanityFail = true then stFailureTransition { s with retries := 0 }
  else if TRANSMISSION_FAILURES cfg.repeater ≤ s.failedUplink then
    if autoFindParent cfg = true then stParentTransition cfg { s with retries := 0 }
    else { s with failedUplink := 0 }
  else s

/-- Modelled from the spec: `stFailureUpdate` (body missing): after
`TIMEOUT_FAILURE_STATE` the transport re-initializes. -/
def stFailureUpdate (cfg : Config) (inp : Input) (s : NodeState) : NodeState :=
  if inp.failureTimeout = true then stInitTransition cfg inp { s with retries := 0 } else s

/-- Modelled from the spec: `transportUpdateSM` (body missing): dispatch the
current state's update action.  INIT has no update: its transition always
decides the next state, so the machine is never observed resting in INIT. -/
def transportUpdateSM (cfg : Config) (inp : Input) (s : NodeState) : NodeState :=
  match s.st with
  | SMState.INIT => s
  | SMState.FIND_PARENT => stParentUpdate cfg inp s
  | SMState.ACQUIRE_ID => stIDUpdate inp s
  | SMState.UPLINK => stUplinkUpdate inp s
  | SMState.READY => stReadyUpdate cfg inp s
  | SMState.FAILURE => stFailureUpdate cfg inp s

/-- Each failed uplink send performed by the routing layer since the last
tick increments the 4-bit `failedUplinkTransmissions` bit-field once. -/
def applyFailures (k : Nat) (s : NodeState) : NodeState :=
  { s with failedUplink := inc4^[k] s.failedUplink }

/-- Modelled from the spec: the public `transportProcess` (body missing;
header lines 326-329 and spec section 4.H): one tick applies the routing
failures accumulated since the previous call, drains at most
`MAX_SUBSEQ_MSGS` frames from the RX FIFO, then runs the current state's
update.  The second component is what is left in the FIFO. -/
def transportProcess (cfg : Config) (inp : Input) (s : NodeState) :
    NodeState × List (Nat × Nat) :=
  (transportUpdateSM cfg inp
     (transportProcessFIFO MAX_SUBSEQ_MSGS (applyFailures inp.uplinkFailures s) inp.fparResponses).1,
   (transportProcessFIFO MAX_SUBSEQ_MSGS (applyFailures inp.uplinkFailures s) inp.fparResponses).2)

/-- Modelled from the spec: `transportInitialize` ... the state produced by
initializing the transport: the INIT transition chain applied to the
power-on state. -/
def initState (cfg : Config) (inp : Input) : NodeState :=
  stInitTransition cfg inp initialNodeState

/-- The reachable states of a node: the state after initialization, and
anything a further `transportProcess` tick with well-formed environment
input produces. -/
inductive Reachable (cfg : Config) : NodeState → Prop where
  | boot : ∀ inp, InputWF inp → Reachable cfg (initState cfg inp)
  | step : ∀ inp s, Reachable cfg s → InputWF inp →
      Reachable cfg (transportProcess cfg inp s).1

/-- The state in the middle of a `transportProcess` tick: after the
failure-counter increments and the FIFO drain, just before the current
state's update action runs. -/
def drainedState (inp : Input) (s : NodeState) : NodeState :=
  (transportProcessFIFO MAX_SUBSEQ_MSGS (applyFailures inp.uplinkFailures s) inp.fparResponses).1

/-- The retry branch of the state machine: the exact situations in which the
current update re-enters its state with an incremented `retries` counter (or,
when the counter is exhausted, moves to FAILURE): FIND_PARENT timing out with
no candidate, ACQUIRE_ID timing out with no ID response, and UPLINK with a
failed gateway ping.  The conditions are read off `drainedState inp s`, the
state after the counter increments and the FIFO drain of the same tick. -/
def retryCondition (inp : Input) (s : NodeState) : Prop :=
  ((drainedState inp s).st = SMState.FIND_PARENT ∧
    (drainedState inp s).preferredParentFound = false ∧
    inp.timeout = true ∧ (drainedState inp s).tentDist = DISTANCE_INVALID) ∨
  ((drainedState inp s).st = SMState.ACQUIRE_ID ∧ inp.idResponse = none ∧ inp.timeout = true) ∨
  ((drainedState inp s).st = SMState.UPLINK ∧ inp.uplinkOk = false)

/-- A non-gateway node with dynamic parent search and static node ID 7
(spec scenario 1). -/
def cfgDyn : Config where
  isGateway := false
  staticParent := AUTO
  staticNodeId := 7
  repeater := false

/-- Quiet environment: radio initializes, nothing arrives, nothing times
out. -/
def inpQuiet : Input where
  radioInitOk := true
  uplinkFailures := 0
  fparResponses := []
  timeout := false
  idResponse := none
  uplinkOk := false
  sanityFail := false
  failureTimeout := false

/-- Environment of spec scenario 1: the gateway itself answers the
FIND_PARENT broadcast with `(sender = 0, distance = 0)` and the state then
times out. -/
def inpGwResp : Input :=
  { inpQuiet with fparResponses := [(GATEWAY_ADDRESS, 0)], timeout := true }

/-- Environment in which the gateway ping of the UPLINK state succeeds. -/
def inpUplOk : Input := { inpQuiet with uplinkOk := true }

/-- Scenario state: node booted, searching for a parent. -/
def sBoot : NodeState := initState cfgDyn inpQuiet

/-- Scenario state: the gateway's response was committed, the node moved
through ACQUIRE_ID into UPLINK with parent 0. -/
def sParented : NodeState := (transportProcess cfgDyn inpGwResp sBoot).1

/-- Scenario state: the uplink ping succeeded, the node is READY with the
gateway (address 0) as its parent. -/
def sReady : NodeState := (transportProcess cfgDyn inpUplOk sParented).1

/-- Environment of spec scenario 2: nobody answers the FIND_PARENT
broadcast and the state times out. -/
def inpTO : Input := { inpQuiet with timeout := true }

/-- Scenario state: first find-parent round timed out, `retries = 1`. -/
def sRetry1 : NodeState := (transportProcess cfgDyn inpTO sBoot).1

/-- Scenario state: second find-parent round timed out, `retries = 2`. -/
def sRetry2 : NodeState := (transportProcess cfgDyn inpTO sRetry1).1

/-- Scenario state: third find-parent round timed out, `retries = 3` =
`STATE_RETRIES`; one more timeout moves the machine to FAILURE. -/
def sRetry3 : NodeState := (transportProcess cfgDyn inpTO sRetry2).1

/-- Core state invariant, stable under the failure-counter increments and
the FIFO drain that happen inside a tick: the two 4-bit counters are in
range (`retries` moreover never passes `STATE_RETRIES`), a tentative parent
candidate is never the broadcast address, a preferred-parent mark implies a
candidate exists, and past FIND_PARENT a non-gateway node's parent is a
valid (non-AUTO) address. -/
structure InvCore (cfg : Config) (s : NodeState) : Prop where
  retries_le : s.retries ≤ STATE_RETRIES
  failed_le : s.failedUplink ≤ 15
  tent_valid : s.tentDist ≠ DISTANCE_INVALID → s.tentParent ≠ BROADCAST_ADDRESS
  pref_tent : s.preferredParentFound = true → s.tentDist ≠ DISTANCE_INVALID
  parent_valid : cfg.isGateway = false →
    s.st = SMState.ACQUIRE_ID ∨ s.st = SMState.UPLINK ∨ s.st = SMState.READY →
    s.parent ≠ AUTO

/-- Full state invariant, holding between `transportProcess` ticks: the core
invariant, and in READY the failed-uplink counter is strictly below the
`TRANSMISSION_FAILURES` threshold. -/
structure Inv (cfg : Config) (s : NodeState) : Prop where
  core : InvCore cfg s
  ready_failed : s.st = SMState.READY → s.failedUplink < TRANSMISSION_FAILURES cfg.repeater

theorem inc4_le_15 (x : Nat) : inc4 x ≤ 15 := by
  unfold inc4; omega

theorem inc4_iter_le (k x : Nat) (h : x ≤ 15) : inc4^[k] x ≤ 15 := by
  cases k with
  | zero => simpa using h
  | succ n => rw [Function.iterate_succ_apply']; exact inc4_le_15 _

theorem inc4_of_lt {x : Nat} (h : x < 15) : inc4 x = x + 1 := by
  unfold inc4; omega

theorem TF_pos (r : Bool) : 0 < TRANSMISSION_FAILURES r := by
  unfold TRANSMISSION_FAILURES; cases r <;> simp

theorem autoFindParent_ne {cfg : Config} (h : autoFindParent cfg = false) :
    cfg.staticParent ≠ AUTO := by
  simpa [autoFindParent] using h

theorem fparHandleResponse_fields (s : NodeState) (p : Nat × Nat) :
    (fparHandleResponse s p).st = s.st ∧
    (fparHandleResponse s p).retries = s.retries ∧
    (fparHandleResponse s p).failedUplink = s.failedUplink ∧
    (fparHandleResponse s p).parent = s.parent := by
  unfold fparHandleResponse
  split_ifs <;> simp

theorem fparHandleResponse_core {cfg : Config} {s : NodeState} {p : Nat × Nat}
    (h : InvCore cfg s) (hp : p.1 ≠ BROADCAST_ADDRESS) :
    InvCore cfg (fparHandleResponse s p) := by
  unfold fparHandleResponse
  split_ifs with h1 h2 h3 h4
  · exact h
  · exact h
  · have hd : p.2 ≠ DISTANCE_INVALID := by
      simpa [isValidDistance] using h2
    exact ⟨h.retries_le, h.failed_le, fun _ => hp,
           fun hpref => absurd (h.pref_tent hpref) (by simpa using h3), h.parent_valid⟩
  · have hd : p.2 ≠ DISTANCE_INVALID := by
      simpa [isValidDistance] using h2
    exact ⟨h.retries_le, h.failed_le, fun _ => hp, fun _ => hd, h.parent_valid⟩
  · exact h

theorem transportProcessFIFO_fields (n : Nat) (s : NodeState) (l : List (Nat × Nat)) :
    (transportProcessFIFO n s l).1.st = s.st ∧
    (transportProcessFIFO n s l).1.retries = s.retries ∧
    (transportProcessFIFO n s l).1.failedUplink = s.failedUplink ∧
    (transportProcessFIFO n s l).1.parent = s.parent := by
  induction n generalizing s l with
  | zero => simp [transportProcessFIFO]
  | succ n ih =>
    cases l with
    | nil => simp [transportProcessFIFO]
    | cons f rest =>
      have h1 := fparHandleResponse_fields s f
      have h2 := ih (fparHandleResponse s f) rest
      simp only [transportProcessFIFO]
      exact ⟨h2.1.trans h1.1, h2.2.1.trans h1.2.1,
             h2.2.2.1.trans h1.2.2.1, h2.2.2.2.trans h1.2.2.2⟩

theorem transportProcessFIFO_core {cfg : Config} (n : Nat) {s : NodeState}
    {l : List (Nat × Nat)} (h : InvCore cfg s)
    (hl : ∀ p ∈ l, p.1 ≠ BROADCAST_ADDRESS) :
    InvCore cfg (transportProcessFIFO n s l).1 := by
  induction n generalizing s l with
  | zero => simpa [transportProcessFIFO] using h
  | succ n ih =>
    cases l with
    | nil => simpa [transportProcessFIFO] using h
    | cons f rest =>
      simp only [transportProcessFIFO]
      exact ih (fparHandleResponse_core h (hl f (List.mem_cons_self f rest)))
        (fun p hp => hl p (List.mem_cons_of_mem f hp))

theorem transportProcessFIFO_consumed (n : Nat) (s : NodeState) (l : List (Nat × Nat)) :
    l.length ≤ (transportProcessFIFO n s l).2.length + n := by
  induction n generalizing s l with
  | zero => simp [transportProcessFIFO]
  | succ n ih =>
    cases l with
    | nil => simp [transportProcessFIFO]
    | cons f rest =>
      have h := ih (fparHandleResponse s f) rest
      simp only [transportProcessFIFO, List.length_cons]
      omega

theorem applyFailures_core {cfg : Config} {s : NodeState} (k : Nat)
    (h : InvCore cfg s) : InvCore cfg (applyFailures k s) :=
  ⟨h.retries_le, inc4_iter_le k _ h.failed_le, h.tent_valid, h.pref_tent, h.parent_valid⟩

theorem stReadyTransition_inv {cfg : Config} {s : NodeState} (h : InvCore cfg s)
    (hpar : cfg.isGateway = false → s.parent ≠ AUTO) :
    Inv cfg (stReadyTransition s) :=
  ⟨⟨Nat.zero_le _, Nat.zero_le _, h.tent_valid, h.pref_tent, fun hgw _ => hpar hgw⟩,
   fun _ => TF_pos _⟩

theorem stUplinkTransition_inv {cfg : Config} {s : NodeState} (h : InvCore cfg s)
    (hpar : cfg.isGateway = false → s.parent ≠ AUTO) :
    Inv cfg (stUplinkTransition s) :=
  ⟨⟨h.retries_le, h.failed_le, h.tent_valid, h.pref_tent, fun hgw _ => hpar hgw⟩,
   fun hR => nomatch hR⟩

theorem stIDTransition_inv {cfg : Config} {s : NodeState} (h : InvCore cfg s)
    (hpar : cfg.isGateway = false → s.parent ≠ AUTO) :
    Inv cfg (stIDTransition s) := by
  unfold stIDTransition
  split_ifs with hid
  · exact stUplinkTransition_inv
      ⟨Nat.zero_le _, h.failed_le, h.tent_valid, h.pref_tent, fun hgw _ => hpar hgw⟩ hpar
  · exact ⟨⟨h.retries_le, h.failed_le, h.tent_valid, h.pref_tent, fun hgw _ => hpar hgw⟩,
           fun hR => nomatch hR⟩

theorem stParentTransition_inv {cfg : Config} {s : NodeState} (h : InvCore cfg s) :
    Inv cfg (stParentTransition cfg s) := by
  unfold stParentTransition
  split_ifs with hauto
  · exact ⟨⟨h.retries_le, Nat.zero_le _, fun ht => absurd rfl ht, fun hp => (nomatch hp),
            fun _ hmem => by rcases hmem with h1 | h1 | h1 <;> exact nomatch h1⟩,
           fun hR => nomatch hR⟩
  · exact stIDTransition_inv
      ⟨Nat.zero_le _, Nat.zero_le _, h.tent_valid, h.pref_tent,
       fun _ _ => autoFindParent_ne (Bool.not_eq_true _ ▸ hauto)⟩
      (fun _ => autoFindParent_ne (Bool.not_eq_true _ ▸ hauto))

theorem stFailureTransition_inv {cfg : Config} {s : NodeState} (h : InvCore cfg s) :
    Inv cfg (stFailureTransition s) :=
  ⟨⟨h.retries_le, h.failed_le, h.tent_valid, h.pref_tent,
    fun _ hmem => by rcases hmem with h1 | h1 | h1 <;> exact nomatch h1⟩,
   fun hR => nomatch hR⟩

theorem stInitTransition_inv {cfg : Config} {s : NodeState} (inp : Input)
    (h : InvCore cfg s) : Inv cfg (stInitTransition cfg inp s) := by
  have hreset : InvCore cfg (stInitResetState cfg s) :=
    ⟨Nat.zero_le _, h.failed_le, h.tent_valid, fun hp => (nomatch hp),
     fun _ hmem => by rcases hmem with h1 | h1 | h1 <;> exact nomatch h1⟩
  unfold stInitTransition
  split_ifs with hradio hgw
  · exact stFailureTransition_inv hreset
  · exact stReadyTransition_inv hreset (fun hf => absurd (hf ▸ hgw) (by simp))
  · exact stParentTransition_inv hreset

theorem retries_inc_le {x : Nat} (hx : x < STATE_RETRIES) : inc4 x ≤ STATE_RETRIES := by
  unfold STATE_RETRIES at hx ⊢
  unfold inc4
  omega

theorem stParentUpdate_inv {cfg : Config} {s : NodeState} (inp : Input)
    (h : InvCore cfg s) (hst : s.st = SMState.FIND_PARENT) :
    Inv cfg (stParentUpdate cfg inp s) := by
  have hcommit : s.tentParent ≠ AUTO → Inv cfg (stParentCommit s) := fun hpv =>
    stIDTransition_inv
      ⟨Nat.zero_le _, h.failed_le, h.tent_valid, h.pref_tent, fun _ _ => hpv⟩
      (fun _ => hpv)
  unfold stParentUpdate
  split_ifs with hpref htime htent hret
  · exact hcommit (h.tent_valid (h.pref_tent hpref))
  · exact hcommit (h.tent_valid htent)
  · exact stParentTransition_inv
      ⟨retries_inc_le hret, h.failed_le, h.tent_valid, h.pref_tent, h.parent_valid⟩
  · exact stFailureTransition_inv
      ⟨Nat.zero_le _, h.failed_le, h.tent_valid, h.pref_tent, h.parent_valid⟩
  · exact ⟨h, fun hR => (nomatch hst.symm.trans hR)⟩

theorem stIDUpdate_inv {cfg : Config} {s : NodeState} (inp : Input)
    (h : InvCore cfg s) (hst : s.st = SMState.ACQUIRE_ID) :
    Inv cfg (stIDUpdate inp s) := by
  have hpar : cfg.isGateway = false → s.parent ≠ AUTO :=
    fun hgw => h.parent_valid hgw (Or.inl hst)
  unfold stIDUpdate
  cases hresp : inp.idResponse with
  | some newId =>
    dsimp only
    split_ifs with hvalid
    · exact stUplinkTransition_inv
        ⟨Nat.zero_le _, h.failed_le, h.tent_valid, h.pref_tent, fun hgw _ => hpar hgw⟩ hpar
    · exact stFailureTransition_inv
        ⟨Nat.zero_le _, h.failed_le, h.tent_valid, h.pref_tent, h.parent_valid⟩
  | none =>
    dsimp only
    split_ifs with htime hret
    · exact stIDTransition_inv
        ⟨retries_inc_le hret, h.failed_le, h.tent_valid, h.pref_tent, h.parent_valid⟩ hpar
    · exact stFailureTransition_inv
        ⟨Nat.zero_le _, h.failed_le, h.tent_valid, h.pref_tent, h.parent_valid⟩
    · exact ⟨h, fun hR => (nomatch hst.symm.trans hR)⟩

theorem stUplinkUpdate_inv {cfg : Config} {s : NodeState} (inp : Input)
    (h : InvCore cfg s) (hst : s.st = SMState.UPLINK) :
    Inv cfg (stUplinkUpdate inp s) := by
  have hpar : cfg.isGateway = false → s.parent ≠ AUTO :=
    fun hgw => h.parent_valid hgw (Or.inr (Or.inl hst))
  unfold stUplinkUpdate
  split_ifs with hok hret
  · exact stReadyTransition_inv h hpar
  · exact stUplinkTransition_inv
      ⟨retries_inc_le hret, h.failed_le, h.tent_valid, h.pref_tent, h.parent_valid⟩ hpar
  · exact stFailureTransition_inv
      ⟨Nat.zero_le _, h.failed_le, h.tent_valid, h.pref_tent, h.parent_valid⟩

theorem stReadyUpdate_inv {cfg : Config} {s : NodeState} (inp : Input)
    (h : InvCore cfg s) (_hst : s.st = SMState.READY) :
    Inv cfg (stReadyUpdate cfg inp s) := by
  unfold stReadyUpdate
  split_ifs with hsan hcnt hauto
  · exact stFailureTransition_inv
      ⟨Nat.zero_le _, h.failed_le, h.tent_valid, h.pref_tent, h.parent_valid⟩
  · exact stParentTransition_inv
      ⟨Nat.zero_le _, h.failed_le, h.tent_valid, h.pref_tent, h.parent_valid⟩
  · exact ⟨⟨h.retries_le, Nat.zero_le _, h.tent_valid, h.pref_tent, h.parent_valid⟩,
           fun _ => TF_pos _⟩
  · exact ⟨h, fun _ => by omega⟩

theorem stFailureUpdate_inv {cfg : Config} {s : NodeState} (inp : Input)
    (h : InvCore cfg s) (hst : s.st = SMState.FAILURE) :
    Inv cfg (stFailureUpdate cfg inp s) := by
  unfold stFailureUpdate
  split_ifs with ht
  · exact stInitTransition_inv inp
      ⟨Nat.zero_le _, h.failed_le, h.tent_valid, h.pref_tent, h.parent_valid⟩
  · exact ⟨h, fun hR => (nomatch hst.symm.trans hR)⟩

theorem transportUpdateSM_inv {cfg : Config} (inp : Input) {s : NodeState}
    (h : InvCore cfg s) : Inv cfg (transportUpdateSM cfg inp s) := by
  unfold transportUpdateSM
  cases hst : s.st with
  | INIT => exact ⟨h, fun hR => (nomatch hst.symm.trans hR)⟩
  | FIND_PARENT => exact stParentUpdate_inv inp h hst
  | ACQUIRE_ID => exact stIDUpdate_inv inp h hst
  | UPLINK => exact stUplinkUpdate_inv inp h hst
  | READY => exact stReadyUpdate_inv inp h hst
  | FAILURE => exact stFailureUpdate_inv inp h hst

theorem transportProcess_inv {cfg : Config} {inp : Input} {s : NodeState}
    (h : Inv cfg s) (hWF : InputWF inp) :
    Inv cfg (transportProcess cfg inp s).1 :=
  transportUpdateSM_inv inp
    (transportProcessFIFO_core _ (applyFailures_core _ h.core) hWF)

theorem initialNodeState_core (cfg : Config) : InvCore cfg initialNodeState :=
  ⟨Nat.zero_le _, Nat.zero_le _, fun ht => absurd rfl ht, fun hp => (nomatch hp),
   fun _ hmem => by rcases hmem with h1 | h1 | h1 <;> exact nomatch h1⟩

theorem initState_inv (cfg : Config) (inp : Input) : Inv cfg (initState cfg inp) :=
  stInitTransition_inv inp (initialNodeState_core cfg)

theorem reachable_inv {cfg : Config} {s : NodeState} (h : Reachable cfg s) :
    Inv cfg s := by
  induction h with
  | boot inp hWF => exact initState_inv cfg inp
  | step inp s hs hWF ih => exact transportProcess_inv ih hWF

theorem inpQuiet_wf : InputWF inpQuiet := by
  unfold InputWF; decide

theorem inpGwResp_wf : InputWF inpGwResp := by
  unfold InputWF; decide

theorem inpUplOk_wf : InputWF inpUplOk := by
  unfold InputWF; decide

theorem inpTO_wf : InputWF inpTO := by
  unfold InputWF; decide

theorem sBoot_reachable : Reachable cfgDyn sBoot :=
  Reachable.boot inpQuiet inpQuiet_wf

theorem sParented_reachable : Reachable cfgDyn sParented :=
  Reachable.step inpGwResp sBoot sBoot_reachable inpGwResp_wf

theorem sReady_reachable : Reachable cfgDyn sReady :=
  Reachable.step inpUplOk sParented sParented_reachable inpUplOk_wf

theorem sRetry1_reachable : Reachable cfgDyn sRetry1 :=
  Reachable.step inpTO sBoot sBoot_reachable inpTO_wf

theorem sRetry2_reachable : Reachable cfgDyn sRetry2 :=
  Reachable.step inpTO sRetry1 sRetry1_reachable inpTO_wf

theorem sRetry3_reachable : Reachable cfgDyn sRetry3 :=
  Reachable.step inpTO sRetry2 sRetry2_reachable inpTO_wf

/-- C1 (counterexample): the claim "READY implies parent not in {0, 255}"
fails on the code: address 0 is the gateway, and the gateway is a legitimate
(indeed the best) parent.  Replaying spec scenario 1 - the gateway answers
the FIND_PARENT broadcast with distance 0 - yields a reachable READY state
of a non-gateway node whose stored parent ID is 0. -/
theorem claim_C1_counterexample :
    Reachable cfgDyn sReady ∧ cfgDyn.isGateway = false ∧
    sReady.st = SMState.READY ∧ sReady.parent = 0 :=
  ⟨sReady_reachable, rfl, by decide, by decide⟩

/-- C1 (amended): for every reachable state of a non-gateway node, if the
transport state is READY then the stored parent ID is a valid parent in the
sense of the header's `isValidParent` macro (it is not 255, the
AUTO/broadcast sentinel) and `failedUplinkTransmissions` is strictly less
than `TRANSMISSION_FAILURES`.  (The original claim's additional exclusion of
parent 0 is refuted by `claim_C1_counterexample`.) -/
theorem claim_C1_ready_invariant : ∀ (cfg : Config) (s : NodeState),
    Reachable cfg s → cfg.isGateway = false → s.st = SMState.READY →
    isValidParent s.parent = true ∧ s.failedUplink < TRANSMISSION_FAILURES cfg.repeater := by
  intro cfg s h hgw hready
  have hi := reachable_inv h
  refine ⟨?_, hi.ready_failed hready⟩
  have hpv := hi.core.parent_valid hgw (Or.inr (Or.inr hready))
  simpa [isValidParent] using hpv

/-- C1 (witness): the amended invariant evaluated on the concrete reachable
READY state of spec scenario 1. -/
theorem claim_C1_witness :
    (cfgDyn.isGateway = false ∧ sReady.st = SMState.READY) ∧
    (isValidParent sReady.parent = true ∧
     sReady.failedUplink < TRANSMISSION_FAILURES cfgDyn.repeater) :=
  ⟨⟨rfl, by decide⟩,
   claim_C1_ready_invariant cfgDyn sReady sReady_reachable rfl (by decide)⟩

/-- C2: for every message and every transport state other than READY, the
public send path `transportSendRoute` refuses the message and returns the
"transport not ready" error `false`, leaving the message unsent (no routing
action is emitted and the state is unchanged). -/
theorem claim_C2_send_refused : ∀ (self : Nat) (table : Nat → Option Nat)
    (sendOk : Bool) (s : NodeState) (m : MyMessage),
    s.st ≠ SMState.READY →
    transportSendRoute self table sendOk s m = (false, s, []) := by
  intro self table sendOk s m h
  unfold transportSendRoute
  simp [isTransportReady, h]

/-- C2 (witness): a send attempted right after boot, while the node is still
searching for a parent, is refused. -/
theorem claim_C2_witness :
    sBoot.st ≠ SMState.READY ∧
    transportSendRoute 7 emptyTable true sBoot { destination := 3 } = (false, sBoot, []) :=
  ⟨by decide, claim_C2_send_refused 7 emptyTable true sBoot { destination := 3 } (by decide)⟩

/-- C3: in every reachable state `retries ≤ STATE_RETRIES` (3), and whenever
the state machine's update is in its retry branch (`retryCondition`: the
situations that increment `retries`) while the counter already equals
`STATE_RETRIES`, the next state after the tick is FAILURE. -/
theorem claim_C3_retries : ∀ (cfg : Config) (s : NodeState), Reachable cfg s →
    s.retries ≤ STATE_RETRIES ∧
    (∀ inp, InputWF inp → retryCondition inp s → s.retries = STATE_RETRIES →
      (transportProcess cfg inp s).1.st = SMState.FAILURE) := by
  intro cfg s h
  refine ⟨(reachable_inv h).core.retries_le, ?_⟩
  intro inp hWF hrc hmax
  have hfld := transportProcessFIFO_fields MAX_SUBSEQ_MSGS
    (applyFailures inp.uplinkFailures s) inp.fparResponses
  have hret : (drainedState inp s).retries = s.retries := hfld.2.1
  show (transportUpdateSM cfg inp (drainedState inp s)).st = SMState.FAILURE
  rcases hrc with ⟨h1, h2, h3, h4⟩ | ⟨h1, h2, h3⟩ | ⟨h1, h2⟩
  · simp [transportUpdateSM, h1, stParentUpdate, h2, h3, h4, hret, hmax,
          stFailureTransition]
  · simp [transportUpdateSM, h1, stIDUpdate, h2, h3, hret, hmax, stFailureTransition]
  · simp [transportUpdateSM, h1, stUplinkUpdate, h2, hret, hmax, stFailureTransition]

/-- C3 (witness): after three timed-out find-parent rounds the counter sits
at `STATE_RETRIES`; the retry condition holds for a fourth timeout, and that
tick indeed moves the machine to FAILURE. -/
theorem claim_C3_witness :
    (InputWF inpTO ∧ retryCondition inpTO sRetry3 ∧ sRetry3.retries = STATE_RETRIES) ∧
    (transportProcess cfgDyn inpTO sRetry3).1.st = SMState.FAILURE :=
  ⟨⟨inpTO_wf, by unfold retryCondition drainedState; decide, by decide⟩,
   (claim_C3_retries cfgDyn sRetry3 sRetry3_reachable).2 inpTO inpTO_wf
     (by unfold retryCondition drainedState; decide) (by decide)⟩

/-- C4: for every call of `transportProcess`, regardless of how many frames
are pending, at most `MAX_SUBSEQ_MSGS` (5) frames are consumed from the
radio RX FIFO during that call: what remains is at most 5 frames shorter
than what was pending. -/
theorem claim_C4_fifo_bound : ∀ (cfg : Config) (inp : Input) (s : NodeState),
    inp.fparResponses.length ≤ (transportProcess cfg inp s).2.length + MAX_SUBSEQ_MSGS :=
  fun _ inp s => transportProcessFIFO_consumed MAX_SUBSEQ_MSGS
    (applyFailures inp.uplinkFailures s) inp.fparResponses

theorem transportCheckUplink_due {f : Bool} {now : Nat} {r : Option Nat} {s : NodeState}
    (h : ¬(f = false ∧ now - s.lastUplinkCheck < CHKUPL_INTERVAL)) :
    (transportCheckUplink f now r s).2.1 = 1 ∧
    (transportCheckUplink f now r s).2.2.lastUplinkCheck = now := by
  unfold transportCheckUplink
  rw [if_neg h]
  cases r with
  | none => simp [transportPingNode, pingStart]
  | some hops =>
    simp only [transportPingNode, pingStart]
    split_ifs <;> simp

theorem transportCheckUplink_flood {now : Nat} {r : Option Nat} {s : NodeState}
    (h : now - s.lastUplinkCheck < CHKUPL_INTERVAL) :
    transportCheckUplink false now r s = (true, 0, s) := by
  unfold transportCheckUplink
  rw [if_pos ⟨rfl, h⟩]

/-- C5 (counterexample): two `check_uplink(false)` calls whose times differ
by less than `CHKUPL_INTERVAL` need not produce exactly one radio ping: when
the first call is itself flood-controlled (here: boot state, clock at 5000
and 6000 ms, less than 10 s after the initial last-check stamp 0), both
calls are flood-controlled and zero pings are emitted. -/
theorem claim_C5_counterexample :
    6000 - 5000 < CHKUPL_INTERVAL ∧
    (transportCheckUplink false 5000 (some 1) initialNodeState).2.1 = 0 ∧
    (transportCheckUplink false 6000 (some 1)
      (transportCheckUplink false 5000 (some 1) initialNodeState).2.2).2.1 = 0 := by
  decide

/-- C5 (amended): for every pair of `transportCheckUplink false` calls whose
invocation times differ by less than `CHKUPL_INTERVAL` (10000 ms), provided
the first call is not itself flood-controlled (at least `CHKUPL_INTERVAL`
elapsed since the stored last uplink check), exactly one radio ping to the
gateway is emitted - by the first call - and the second call returns the
flood-controlled "ok" without pinging. -/
theorem claim_C5_flood_control : ∀ (s : NodeState) (t1 t2 : Nat) (r1 r2 : Option Nat),
    s.lastUplinkCheck + CHKUPL_INTERVAL ≤ t1 → t1 ≤ t2 → t2 - t1 < CHKUPL_INTERVAL →
    (transportCheckUplink false t1 r1 s).2.1 = 1 ∧
    (transportCheckUplink false t2 r2 (transportCheckUplink false t1 r1 s).2.2).2.1 = 0 ∧
    (transportCheckUplink false t2 r2 (transportCheckUplink false t1 r1 s).2.2).1 = true := by
  intro s t1 t2 r1 r2 h1 h2 h3
  have hdue : ¬(false = false ∧ t1 - s.lastUplinkCheck < CHKUPL_INTERVAL) := by
    intro hc
    exact absurd hc.2 (by omega)
  obtain ⟨hp1, hl1⟩ := @transportCheckUplink_due false t1 r1 s hdue
  have hsec := @transportCheckUplink_flood t2 r2
    (transportCheckUplink false t1 r1 s).2.2 (by rw [hl1]; omega)
  exact ⟨hp1, by rw [hsec], by rw [hsec]⟩

/-- C5 (witness): the amended flood-control law evaluated at a due first
call at 10000 ms and a second call at 19999 ms. -/
theorem claim_C5_witness :
    (initialNodeState.lastUplinkCheck + CHKUPL_INTERVAL ≤ 10000 ∧ 10000 ≤ 19999 ∧
     19999 - 10000 < CHKUPL_INTERVAL) ∧
    ((transportCheckUplink false 10000 (some 1) initialNodeState).2.1 = 1 ∧
     (transportCheckUplink false 19999 none
       (transportCheckUplink false 10000 (some 1) initialNodeState).2.2).2.1 = 0 ∧
     (transportCheckUplink false 19999 none
       (transportCheckUplink false 10000 (some 1) initialNodeState).2.2).1 = true) :=
  ⟨by decide,
   claim_C5_flood_control initialNodeState 10000 19999 (some 1) none
     (by decide) (by decide) (by decide)⟩

/-- C6: the constant `TRANSMISSION_FAILURES` equals 10 when the build
defines `MY_REPEATER_FEATURE` (Boolean argument `true`) and 5 otherwise
(header lines 148-152). -/
theorem claim_C6_transmission_failures :
    TRANSMISSION_FAILURES true = 10 ∧ TRANSMISSION_FAILURES false = 5 := by
  decide

/-- C7: for every target, `transportPingNode` emits exactly one I_PING to
that target, raises the ping-active flag for the wait (`pingStart`), and
returns the hop count carried by the matching I_PONG, or `INVALID_HOPS`
(255) when no reply arrives within the 2000 ms window (`reply = none`); the
flag is cleared before returning. -/
theorem claim_C7_ping_node : ∀ (targetId : Nat) (reply : Option Nat) (s : NodeState),
    (transportPingNode targetId reply s).2.2 = [targetId] ∧
    (pingStart s).pingActive = true ∧
    (transportPingNode targetId reply s).1 = reply.getD INVALID_HOPS ∧
    (transportPingNode targetId reply s).2.1.pingActive = false := by
  intro targetId reply s
  cases reply <;> simp [transportPingNode, pingStart]

/-- C8: during FIND_PARENT, a find-parent response whose reported distance
equals `DISTANCE_INVALID` (255) is ignored: processing it leaves the whole
state unchanged, so it neither becomes the tentative parent nor changes the
stored parent or distance. -/
theorem claim_C8_invalid_distance_ignored : ∀ (s : NodeState) (sender : Nat),
    fparHandleResponse s (sender, DISTANCE_INVALID) = s := by
  intro s sender
  unfold fparHandleResponse
  have hd : isValidDistance (sender, DISTANCE_INVALID).2 = false := rfl
  simp [hd]

/-- C9: `transportRouteMessage` performs no readiness check: its outcome
(result flag and emitted routing actions) does not depend on the transport
state field at all, and with no parent search active a message handed to it
is actually sent - one radio send to the routed next hop, result equal to
the link-layer outcome - even when the state is not READY; only
`transportSendRoute` enforces the readiness precondition, returning false in
that same situation. -/
theorem claim_C9_route_omits_state_check :
    ∀ (self : Nat) (table : Nat → Option Nat) (sendOk : Bool) (s : NodeState)
      (m : MyMessage) (x : SMState),
      s.st ≠ SMState.READY → s.findingParent = false →
      m.destination ≠ self → m.destination ≠ BROADCAST_ADDRESS →
      ((transportRouteMessage self table sendOk { s with st := x } m).1 =
        (transportRouteMessage self table sendOk s m).1 ∧
       (transportRouteMessage self table sendOk { s with st := x } m).2.2 =
        (transportRouteMessage self table sendOk s m).2.2) ∧
      (transportRouteMessage self table sendOk s m).2.2 =
        [RouteEvent.radioSend ((table m.destination).getD s.parent)] ∧
      (transportRouteMessage self table sendOk s m).1 = sendOk ∧
      (transportSendRoute self table sendOk s m).1 = false := by
  intro self table sendOk s m x hst hfp hd1 hd2
  have hxfp : ({ s with st := x } : NodeState).findingParent = false := hfp
  unfold transportRouteMessage transportSendRoute
  cases sendOk <;> simp [hfp, hxfp, hd1, hd2, isTransportReady, hst]

/-- C9 (witness): in the UPLINK state (not READY, no parent search active)
`transportRouteMessage` sends a message for node 3 to the parent while
`transportSendRoute` refuses it. -/
theorem claim_C9_witness :
    (sParented.st ≠ SMState.READY ∧ sParented.findingParent = false ∧
     (3 : Nat) ≠ 7 ∧ (3 : Nat) ≠ BROADCAST_ADDRESS) ∧
    (((transportRouteMessage 7 emptyTable true { sParented with st := SMState.READY }
        { destination := 3 }).1 =
      (transportRouteMessage 7 emptyTable true sParented { destination := 3 }).1 ∧
      (transportRouteMessage 7 emptyTable true { sParented with st := SMState.READY }
        { destination := 3 }).2.2 =
      (transportRouteMessage 7 emptyTable true sParented { destination := 3 }).2.2) ∧
     (transportRouteMessage 7 emptyTable true sParented { destination := 3 }).2.2 =
       [RouteEvent.radioSend ((emptyTable 3).getD sParented.parent)] ∧
     (transportRouteMessage 7 emptyTable true sParented { destination := 3 }).1 = true ∧
     (transportSendRoute 7 emptyTable true sParented { destination := 3 }).1 = false) :=
  ⟨⟨by decide, by decide, by decide, by decide⟩,
   claim_C9_route_omits_state_check 7 emptyTable true sParented { destination := 3 }
     SMState.READY (by decide) (by decide) (by decide) (by decide)⟩

theorem inc4_iter_eq (k x : Nat) (h : x ≤ 15) : inc4^[k] x = (x + k) % 16 := by
  induction k with
  | zero =>
    simp only [Function.iterate_zero_apply]
    omega
  | succ n ih =>
    rw [Function.iterate_succ_apply', ih]
    unfold inc4
    omega

/-- C10: `retries` and `failedUplinkTransmissions` are 4-bit bit-fields
(header lines 196-197): in every reachable state each holds a value in
[0..15], an increment wraps modulo 16 - `inc4 15 = 0` - and sixteen
consecutive increments alias back to the same value, so the repeater
threshold 10 is representable while 16 failures alias to the starting
value. -/
theorem claim_C10_counters_4bit : ∀ (cfg : Config) (s : NodeState), Reachable cfg s →
    s.retries ≤ 15 ∧ s.failedUplink ≤ 15 ∧ inc4 15 = 0 ∧
    inc4^[16] s.failedUplink = s.failedUplink ∧
    TRANSMISSION_FAILURES true ≤ 15 := by
  intro cfg s h
  have hi := reachable_inv h
  refine ⟨le_trans hi.core.retries_le (by decide), hi.core.failed_le, by decide, ?_, by decide⟩
  rw [inc4_iter_eq 16 s.failedUplink hi.core.failed_le]
  have hf := hi.core.failed_le
  omega

/-- C10 (witness): the 4-bit counter facts evaluated on the concrete
reachable READY state of spec scenario 1. -/
theorem claim_C10_witness :
    sReady.retries ≤ 15 ∧ sReady.failedUplink ≤ 15 ∧ inc4 15 = 0 ∧
    inc4^[16] sReady.failedUplink = sReady.failedUplink ∧
    TRANSMISSION_FAILURES true ≤ 15 :=
  claim_C10_counters_4bit cfgDyn sReady sReady_reachable

end MySensors
